import Mathlib

/-!
Shallow embedding of the httpsign core crypto and configuration layer
(`crypto.go` and `config.go`): construction of `Signer` and `Verifier`,
the algorithm dispatch of `Signer.sign` and `Verifier.verify`, and the
default configurations.

Conventions of the embedding:
- Go byte strings (`[]byte`) are `List Nat`, one entry per byte value;
  a `nil` slice or `nil` pointer argument is `Option.none`.
- Go `(value, error)` returns become explicit result types
  (`SignResult`, `VerifyResult`, `Except String _`); a failed type
  assertion (`s.key.([]byte)` on a key of another type) is the
  distinguished `panicked` outcome.
- The cryptographic primitives (HMAC-SHA256, SHA-256, SHA-512,
  RSA PKCS#1 v1.5, RSA-PSS, ECDSA P-256) are standard-library calls in
  the source; they enter the embedding as a record `CryptoPrims` of
  functions, with the randomness consumed by RSA-PSS and ECDSA signing
  folded into the record. Theorems quantify over the record, so they
  hold for the real primitives.
- `time.Duration` is `Int`, counted in nanoseconds, as in Go.
-/

/-- A byte string (`[]byte` in the source); each entry is one byte value. -/
abbrev Bytes := List Nat

/-- Modelled from the spec: the `Fields` element type (its source file is
not under src/). A component identifier is a pair of a name and a set of
parameters. Only its identity matters to the claims settled here. -/
structure ComponentIdentifier where
  name : String
  params : List (String × String)
  deriving DecidableEq

/-- Modelled from the spec: `Fields` (its source file is not under src/)
is an ordered sequence of component identifiers. -/
abbrev Fields := List ComponentIdentifier

/-- An RSA private key (the payload of `*rsa.PrivateKey`): modulus,
public exponent and private exponent. -/
structure RSAPrivateKey where
  n : Nat
  e : Nat
  d : Nat
  deriving DecidableEq

/-- An RSA public key (the payload of `*rsa.PublicKey`). -/
structure RSAPublicKey where
  n : Nat
  e : Nat
  deriving DecidableEq

/-- An ECDSA P-256 private key (the payload of `*ecdsa.PrivateKey`). -/
structure ECDSAPrivateKey where
  d : Nat
  deriving DecidableEq

/-- An ECDSA P-256 public key (the payload of `*ecdsa.PublicKey`). -/
structure ECDSAPublicKey where
  x : Nat
  y : Nat
  deriving DecidableEq

/-- The dynamic type of the `key interface{}` field of `Signer` and
`Verifier`: the source stores a byte slice, an RSA private or public
key, or an ECDSA private or public key, and recovers it by a type
assertion inside `sign` and `verify`. -/
inductive Key where
  | bytes (b : Bytes)
  | rsaPrivate (k : RSAPrivateKey)
  | rsaPublic (k : RSAPublicKey)
  | ecdsaPrivate (k : ECDSAPrivateKey)
  | ecdsaPublic (k : ECDSAPublicKey)
  deriving DecidableEq

/-- The `requestResponse` pair of `config.go`. -/
structure RequestResponse where
  name : String
  signature : String
  deriving DecidableEq

/-- `SignConfig` of `config.go`: additional configuration for the signer.
The `requestResponse` field is a nullable pointer in the source, hence an
`Option` here. -/
structure SignConfig where
  signAlg : Bool
  signCreated : Bool
  fakeCreated : Int
  expires : Int
  nonce : String
  requestResponse : Option RequestResponse
  deriving DecidableEq

/-- `NewSignConfig` of `config.go`: generates a default configuration.
The Go struct literal leaves `requestResponse` at its zero value `nil`. -/
def NewSignConfig : SignConfig :=
  { signAlg := true
    signCreated := true
    fakeCreated := 0
    expires := 0
    nonce := ""
    requestResponse := none }

/-- One second as a Go `time.Duration` (nanoseconds). -/
def timeSecond : Int := 1000000000

/-- `VerifyConfig` of `config.go`: additional configuration for the
verifier. Durations are in nanoseconds, as Go `time.Duration`. -/
structure VerifyConfig where
  verifyCreated : Bool
  notNewerThan : Int
  notOlderThan : Int
  allowedAlgs : List String
  rejectExpired : Bool
  requestResponse : Option RequestResponse
  verifyKeyID : Bool
  dateWithin : Int
  deriving DecidableEq

/-- `NewVerifyConfig` of `config.go`: generates a default configuration.
The Go struct literal leaves `requestResponse` at its zero value `nil`. -/
def NewVerifyConfig : VerifyConfig :=
  { verifyCreated := true
    notNewerThan := 2 * timeSecond
    notOlderThan := 10 * timeSecond
    rejectExpired := true
    allowedAlgs := []
    requestResponse := none
    verifyKeyID := true
    dateWithin := 0 }

/-- The external cryptographic primitives consumed by the core. Verify
primitives mirror the Go API: `none` means success, `some msg` failure
with error message `msg`; the sign primitives return `none` on failure.
`ecdsaSign` returns the raw pair (r, s) computed by the library, before
the wire encoding applied by `ecdsaSignRaw`. -/
structure CryptoPrims where
  hmacSHA256 : Bytes → Bytes → Bytes
  sha256 : Bytes → Bytes
  sha512 : Bytes → Bytes
  rsaSignPKCS1v15 : RSAPrivateKey → Bytes → Option Bytes
  rsaSignPSS : RSAPrivateKey → Bytes → Option Bytes
  rsaVerifyPKCS1v15 : RSAPublicKey → Bytes → Bytes → Option String
  rsaVerifyPSS : RSAPublicKey → Bytes → Bytes → Option String
  ecdsaSign : ECDSAPrivateKey → Bytes → Option (Nat × Nat)
  ecdsaVerify : ECDSAPublicKey → Bytes → Nat → Nat → Bool

/-- `Signer` of `crypto.go`: a cryptographic key and configuration of
what needs to be signed. The `config` field is a non-nil pointer after
construction, hence a plain value here. -/
structure Signer where
  keyID : String
  key : Key
  alg : String
  config : SignConfig
  fields : Fields
  deriving DecidableEq

/-- `Verifier` of `crypto.go`: a cryptographic key (typically a public
key) and configuration of what needs to be verified. Field names `c`
and `f` are the source's. -/
structure Verifier where
  keyID : String
  key : Key
  alg : String
  c : VerifyConfig
  f : Fields
  deriving DecidableEq

/-- Result of `Signer.sign`, a Go `([]byte, error)` where exactly one
side is non-nil, plus the panic outcome of a failed type assertion. -/
inductive SignResult where
  | ok (sig : Bytes)
  | err (msg : String)
  | panicked
  deriving DecidableEq

/-- Result of `Verifier.verify`, a Go `(bool, error)` pair — both
components are meaningful, `(false, nil)` is a valid outcome — plus the
panic outcome of a failed type assertion. -/
inductive VerifyResult where
  | ret (b : Bool) (e : Option String)
  | panicked
  deriving DecidableEq

/-- `NewHMACSHA256Signer` of `crypto.go`: key must be non-nil and at
least 64 bytes long, keyID non-empty; a nil config is replaced by the
default configuration. -/
def NewHMACSHA256Signer (keyID : String) (key : Option Bytes)
    (config : Option SignConfig) (fields : Fields) : Except String Signer :=
  match key with
  | none => Except.error "key must be at least 64 bytes long"
  | some k =>
    if k.length < 64 then Except.error "key must be at least 64 bytes long"
    else if keyID = "" then Except.error "keyID must not be empty"
    else Except.ok
      { keyID := keyID
        key := Key.bytes k
        alg := "hmac-sha256"
        config := config.getD NewSignConfig
        fields := fields }

/-- `NewRSASigner` of `crypto.go`. -/
def NewRSASigner (keyID : String) (key : Option RSAPrivateKey)
    (config : Option SignConfig) (fields : Fields) : Except String Signer :=
  match key with
  | none => Except.error "key must not be nil"
  | some k =>
    if keyID = "" then Except.error "keyID must not be empty"
    else Except.ok
      { keyID := keyID
        key := Key.rsaPrivate k
        alg := "rsa-v1_5-sha256"
        config := config.getD NewSignConfig
        fields := fields }

/-- `NewRSAPSSSigner` of `crypto.go`. -/
def NewRSAPSSSigner (keyID : String) (key : Option RSAPrivateKey)
    (config : Option SignConfig) (fields : Fields) : Except String Signer :=
  match key with
  | none => Except.error "key must not be nil"
  | some k =>
    if keyID = "" then Except.error "keyID must not be empty"
    else Except.ok
      { keyID := keyID
        key := Key.rsaPrivate k
        alg := "rsa-pss-sha512"
        config := config.getD NewSignConfig
        fields := fields }

/-- `NewP256Signer` of `crypto.go`. -/
def NewP256Signer (keyID : String) (key : Option ECDSAPrivateKey)
    (config : Option SignConfig) (fields : Fields) : Except String Signer :=
  match key with
  | none => Except.error "key must not be nil"
  | some k =>
    if keyID = "" then Except.error "keyID must not be empty"
    else Except.ok
      { keyID := keyID
        key := Key.ecdsaPrivate k
        alg := "ecdsa-p256-sha256"
        config := config.getD NewSignConfig
        fields := fields }

/-- `NewHMACSHA256Verifier` of `crypto.go`: nil key and short key are
rejected with distinct messages; the keyID is not checked. -/
def NewHMACSHA256Verifier (keyID : String) (key : Option Bytes)
    (config : Option VerifyConfig) (fields : Fields) : Except String Verifier :=
  match key with
  | none => Except.error "key must not be nil"
  | some k =>
    if k.length < 64 then Except.error "key must be at least 64 bytes long"
    else Except.ok
      { keyID := keyID
        key := Key.bytes k
        alg := "hmac-sha256"
        c := config.getD NewVerifyConfig
        f := fields }

/-- `NewRSAVerifier` of `crypto.go`: only nil keys are rejected. -/
def NewRSAVerifier (keyID : String) (key : Option RSAPublicKey)
    (config : Option VerifyConfig) (fields : Fields) : Except String Verifier :=
  match key with
  | none => Except.error "key must not be nil"
  | some k =>
    Except.ok
      { keyID := keyID
        key := Key.rsaPublic k
        alg := "rsa-v1_5-sha256"
        c := config.getD NewVerifyConfig
        f := fields }

/-- `NewRSAPSSVerifier` of `crypto.go`: only nil keys are rejected. -/
def NewRSAPSSVerifier (keyID : String) (key : Option RSAPublicKey)
    (config : Option VerifyConfig) (fields : Fields) : Except String Verifier :=
  match key with
  | none => Except.error "key must not be nil"
  | some k =>
    Except.ok
      { keyID := keyID
        key := Key.rsaPublic k
        alg := "rsa-pss-sha512"
        c := config.getD NewVerifyConfig
        f := fields }

/-- `NewP256Verifier` of `crypto.go`: only nil keys are rejected. -/
def NewP256Verifier (keyID : String) (key : Option ECDSAPublicKey)
    (config : Option VerifyConfig) (fields : Fields) : Except String Verifier :=
  match key with
  | none => Except.error "key must not be nil"
  | some k =>
    Except.ok
      { keyID := keyID
        key := Key.ecdsaPublic k
        alg := "ecdsa-p256-sha256"
        c := config.getD NewVerifyConfig
        f := fields }

/-- Modelled from the spec: the big-endian, zero-padded encoding of a
natural number into `n` bytes, used by `ecdsaSignRaw` (whose source file
is not under src/) — "the fixed-length concatenation of r and s (32
bytes each, big-endian, zero-padded), NOT ASN.1/DER". -/
def beBytes : Nat → Nat → Bytes
  | 0, _ => []
  | n + 1, x => beBytes n (x / 256) ++ [x % 256]

/-- Big-endian decoding of a byte string, the inverse of `beBytes`. -/
def beDecode (l : Bytes) : Nat :=
  l.foldl (fun acc b => acc * 256 + b) 0

/-- Modelled from the spec: `ecdsaSignRaw` (its source file is not under
src/) computes the ECDSA signature pair (r, s) with the library
primitive and emits the wire form: the fixed-length concatenation of r
and s, 32 bytes each, big-endian, zero-padded — not ASN.1/DER. -/
def ecdsaSignRaw (prims : CryptoPrims) (key : ECDSAPrivateKey)
    (hashed : Bytes) : SignResult :=
  match prims.ecdsaSign key hashed with
  | some rs => SignResult.ok (beBytes 32 rs.1 ++ beBytes 32 rs.2)
  | none => SignResult.err "ECDSA signature failed"

/-- Modelled from the spec: `ecdsaVerifyRaw` (its source file is not
under src/) reads the wire signature as the fixed-length concatenation
of r and s (32 bytes each, big-endian), decodes the two halves and
checks them with the ECDSA primitive. The spec does not describe an
error path for this function, so none is modelled. -/
def ecdsaVerifyRaw (prims : CryptoPrims) (key : ECDSAPublicKey)
    (hashed : Bytes) (sig : Bytes) : VerifyResult :=
  VerifyResult.ret
    (prims.ecdsaVerify key hashed (beDecode (sig.take 32)) (beDecode (sig.drop 32)))
    none

/-- `Signer.sign` of `crypto.go`: dispatch on the algorithm string; the
default case of the Go switch reports an unknown algorithm. -/
def Signer.sign (prims : CryptoPrims) (s : Signer) (buff : Bytes) : SignResult :=
  if s.alg = "hmac-sha256" then
    match s.key with
    | Key.bytes k => SignResult.ok (prims.hmacSHA256 k buff)
    | _ => SignResult.panicked
  else if s.alg = "rsa-v1_5-sha256" then
    match s.key with
    | Key.rsaPrivate k =>
      match prims.rsaSignPKCS1v15 k (prims.sha256 buff) with
      | some sig => SignResult.ok sig
      | none => SignResult.err "RSA signature failed"
    | _ => SignResult.panicked
  else if s.alg = "rsa-pss-sha512" then
    match s.key with
    | Key.rsaPrivate k =>
      match prims.rsaSignPSS k (prims.sha512 buff) with
      | some sig => SignResult.ok sig
      | none => SignResult.err "RSA-PSS signature failed"
    | _ => SignResult.panicked
  else if s.alg = "ecdsa-p256-sha256" then
    match s.key with
    | Key.ecdsaPrivate k => ecdsaSignRaw prims k (prims.sha256 buff)
    | _ => SignResult.panicked
  else SignResult.err ("sign: unknown algorithm \"" ++ s.alg ++ "\"")

/-- `Verifier.verify` of `crypto.go`: dispatch on the algorithm string.
The HMAC branch compares byte strings and never errors; the RSA branches
turn a primitive failure into `(false, wrapped error)`; the default case
reports an unknown algorithm. -/
def Verifier.verify (prims : CryptoPrims) (v : Verifier) (buff : Bytes)
    (sig : Bytes) : VerifyResult :=
  if v.alg = "hmac-sha256" then
    match v.key with
    | Key.bytes k => VerifyResult.ret (prims.hmacSHA256 k buff == sig) none
    | _ => VerifyResult.panicked
  else if v.alg = "rsa-v1_5-sha256" then
    match v.key with
    | Key.rsaPublic k =>
      match prims.rsaVerifyPKCS1v15 k (prims.sha256 buff) sig with
      | some e => VerifyResult.ret false (some ("RSA verification failed: " ++ e))
      | none => VerifyResult.ret true none
    | _ => VerifyResult.panicked
  else if v.alg = "rsa-pss-sha512" then
    match v.key with
    | Key.rsaPublic k =>
      match prims.rsaVerifyPSS k (prims.sha512 buff) sig with
      | some e => VerifyResult.ret false (some ("RSA-PSS verification failed: " ++ e))
      | none => VerifyResult.ret true none
    | _ => VerifyResult.panicked
  else if v.alg = "ecdsa-p256-sha256" then
    match v.key with
    | Key.ecdsaPublic k => ecdsaVerifyRaw prims k (prims.sha256 buff) sig
    | _ => VerifyResult.panicked
  else VerifyResult.ret false (some ("verify: unknown algorithm \"" ++ v.alg ++ "\""))

/-- State-passing reading of the value-receiver method
`func (s Signer) sign`: the call returns the receiver as it stands when
the method returns, together with the result. The body of `sign` only
reads the receiver's fields. -/
def Signer.signExec (prims : CryptoPrims) (s : Signer) (buff : Bytes) :
    Signer × SignResult :=
  (s, s.sign prims buff)

/-- State-passing reading of the value-receiver method
`func (v Verifier) verify`, as for `Signer.signExec`. -/
def Verifier.verifyExec (prims : CryptoPrims) (v : Verifier) (buff : Bytes)
    (sig : Bytes) : Verifier × VerifyResult :=
  (v, v.verify prims buff sig)

/-- A concrete instantiation of the primitive record, used to evaluate
the embedding on closed inputs. -/
def somePrims : CryptoPrims :=
  { hmacSHA256 := fun k m => k ++ m
    sha256 := fun m => 0 :: m
    sha512 := fun m => 1 :: m
    rsaSignPKCS1v15 := fun _ h => some h
    rsaSignPSS := fun _ h => some h
    rsaVerifyPKCS1v15 := fun _ _ _ => none
    rsaVerifyPSS := fun _ _ _ => none
    ecdsaSign := fun _ _ => some (1, 2)
    ecdsaVerify := fun _ _ _ _ => true }

/-- A second concrete instantiation whose RSA verify primitives fail,
used to evaluate error paths on closed inputs. -/
def failPrims : CryptoPrims :=
  { hmacSHA256 := fun k m => k ++ m
    sha256 := fun m => 0 :: m
    sha512 := fun m => 1 :: m
    rsaSignPKCS1v15 := fun _ _ => none
    rsaSignPSS := fun _ _ => none
    rsaVerifyPKCS1v15 := fun _ _ _ => some "crypto/rsa: verification error"
    rsaVerifyPSS := fun _ _ _ => some "crypto/rsa: verification error"
    ecdsaSign := fun _ _ => none
    ecdsaVerify := fun _ _ _ _ => false }

/-- C7: NewSignConfig returns the default signer configuration: signAlg
and signCreated true, fakeCreated, expires zero, empty nonce, and no
requestResponse set. -/
theorem NewSignConfig_defaults :
    NewSignConfig.signAlg = true ∧
    NewSignConfig.signCreated = true ∧
    NewSignConfig.fakeCreated = 0 ∧
    NewSignConfig.expires = 0 ∧
    NewSignConfig.nonce = "" ∧
    NewSignConfig.requestResponse = none := by
  refine ⟨rfl, rfl, rfl, rfl, rfl, rfl⟩

/-- C3: NewVerifyConfig returns the default verifier configuration:
verifyCreated true, notNewerThan two seconds, notOlderThan ten seconds,
rejectExpired true, empty allowedAlgs, verifyKeyID true, dateWithin
zero (and no requestResponse set). -/
theorem NewVerifyConfig_defaults :
    NewVerifyConfig.verifyCreated = true ∧
    NewVerifyConfig.notNewerThan = 2 * timeSecond ∧
    NewVerifyConfig.notOlderThan = 10 * timeSecond ∧
    NewVerifyConfig.rejectExpired = true ∧
    NewVerifyConfig.allowedAlgs = [] ∧
    NewVerifyConfig.verifyKeyID = true ∧
    NewVerifyConfig.dateWithin = 0 ∧
    NewVerifyConfig.requestResponse = none := by
  refine ⟨rfl, rfl, rfl, rfl, rfl, rfl, rfl, rfl⟩

/-- C1: Round trip for HMAC-SHA256: for every key of length at least 64
bytes and every byte string, a Signer and a Verifier holding the same
key and algorithm hmac-sha256 are constructed successfully, and
verifying the signature produced by signing returns (true, nil). -/
theorem hmac_sha256_round_trip (prims : CryptoPrims)
    (sKeyID vKeyID : String) (key buff : Bytes)
    (sc : Option SignConfig) (vc : Option VerifyConfig) (sf vf : Fields)
    (hlen : 64 ≤ key.length) (hkid : sKeyID ≠ "") :
    ∃ (s : Signer) (v : Verifier) (sig : Bytes),
      NewHMACSHA256Signer sKeyID (some key) sc sf = Except.ok s ∧
      NewHMACSHA256Verifier vKeyID (some key) vc vf = Except.ok v ∧
      s.sign prims buff = SignResult.ok sig ∧
      v.verify prims buff sig = VerifyResult.ret true none := by
  have hnl : ¬ key.length < 64 := Nat.not_lt.mpr hlen
  refine ⟨{ keyID := sKeyID, key := Key.bytes key, alg := "hmac-sha256",
            config := sc.getD NewSignConfig, fields := sf },
          { keyID := vKeyID, key := Key.bytes key, alg := "hmac-sha256",
            c := vc.getD NewVerifyConfig, f := vf },
          prims.hmacSHA256 key buff, ?_, ?_, ?_, ?_⟩
  · simp [NewHMACSHA256Signer, hnl, hkid]
  · simp [NewHMACSHA256Verifier, hnl]
  · simp [Signer.sign]
  · simp [Verifier.verify]

/-- Witness for C1 at a concrete key, keyID and message. -/
theorem hmac_sha256_round_trip_witness :
    ∃ (s : Signer) (v : Verifier) (sig : Bytes),
      NewHMACSHA256Signer "key1" (some (List.replicate 64 1)) none [] = Except.ok s ∧
      NewHMACSHA256Verifier "key1" (some (List.replicate 64 1)) none [] = Except.ok v ∧
      s.sign somePrims [7] = SignResult.ok sig ∧
      v.verify somePrims [7] sig = VerifyResult.ret true none :=
  hmac_sha256_round_trip somePrims "key1" "key1" (List.replicate 64 1) [7]
    none none [] [] (by decide) (by decide)

/-- C4: A cryptographic mismatch is reported as signature-mismatch, not
as an error: with algorithm hmac-sha256, when the Verifier holds a key
whose MAC over the message differs from the MAC of the signing key, the
result of verify on the signed message is (false, nil). -/
theorem hmac_wrong_key_signature_mismatch (prims : CryptoPrims)
    (sKeyID vKeyID : String) (keyA keyB buff : Bytes)
    (sc : Option SignConfig) (vc : Option VerifyConfig) (sf vf : Fields)
    (hlenA : 64 ≤ keyA.length) (hlenB : 64 ≤ keyB.length) (hkid : sKeyID ≠ "")
    (hmac_ne : prims.hmacSHA256 keyB buff ≠ prims.hmacSHA256 keyA buff) :
    ∃ (s : Signer) (v : Verifier) (sig : Bytes),
      NewHMACSHA256Signer sKeyID (some keyA) sc sf = Except.ok s ∧
      NewHMACSHA256Verifier vKeyID (some keyB) vc vf = Except.ok v ∧
      s.sign prims buff = SignResult.ok sig ∧
      v.verify prims buff sig = VerifyResult.ret false none := by
  have hnlA : ¬ keyA.length < 64 := Nat.not_lt.mpr hlenA
  have hnlB : ¬ keyB.length < 64 := Nat.not_lt.mpr hlenB
  have hbeq : (prims.hmacSHA256 keyB buff == prims.hmacSHA256 keyA buff) = false :=
    beq_eq_false_iff_ne.mpr hmac_ne
  refine ⟨{ keyID := sKeyID, key := Key.bytes keyA, alg := "hmac-sha256",
            config := sc.getD NewSignConfig, fields := sf },
          { keyID := vKeyID, key := Key.bytes keyB, alg := "hmac-sha256",
            c := vc.getD NewVerifyConfig, f := vf },
          prims.hmacSHA256 keyA buff, ?_, ?_, ?_, ?_⟩
  · simp [NewHMACSHA256Signer, hnlA, hkid]
  · simp [NewHMACSHA256Verifier, hnlB]
  · simp [Signer.sign]
  · simp [Verifier.verify, hbeq]

/-- Witness for C4 at two concrete distinct keys. -/
theorem hmac_wrong_key_signature_mismatch_witness :
    ∃ (s : Signer) (v : Verifier) (sig : Bytes),
      NewHMACSHA256Signer "key1" (some (List.replicate 64 1)) none [] = Except.ok s ∧
      NewHMACSHA256Verifier "key2" (some (List.replicate 64 2)) none [] = Except.ok v ∧
      s.sign somePrims [7] = SignResult.ok sig ∧
      v.verify somePrims [7] sig = VerifyResult.ret false none :=
  hmac_wrong_key_signature_mismatch somePrims "key1" "key2"
    (List.replicate 64 1) (List.replicate 64 2) [7] none none [] []
    (by decide) (by decide) (by decide) (by decide)

/-- C6: Signer and Verifier are immutable after construction: in the
state-passing reading of the value-receiver methods, every field of the
Signer is unchanged by sign and every field of the Verifier is unchanged
by verify. -/
theorem signer_verifier_immutable (prims : CryptoPrims) (s : Signer)
    (v : Verifier) (buff sig : Bytes) :
    ((s.signExec prims buff).1.keyID = s.keyID ∧
     (s.signExec prims buff).1.key = s.key ∧
     (s.signExec prims buff).1.alg = s.alg ∧
     (s.signExec prims buff).1.config = s.config ∧
     (s.signExec prims buff).1.fields = s.fields) ∧
    ((v.verifyExec prims buff sig).1.keyID = v.keyID ∧
     (v.verifyExec prims buff sig).1.key = v.key ∧
     (v.verifyExec prims buff sig).1.alg = v.alg ∧
     (v.verifyExec prims buff sig).1.c = v.c ∧
     (v.verifyExec prims buff sig).1.f = v.f) :=
  ⟨⟨rfl, rfl, rfl, rfl, rfl⟩, ⟨rfl, rfl, rfl, rfl, rfl⟩⟩

/-- C2: NewHMACSHA256Signer errs exactly when the key is nil or shorter
than 64 bytes or the keyID is empty; otherwise it returns the Signer
with algorithm hmac-sha256, the given key and keyID, and the given
config (the default configuration when nil was passed). -/
theorem NewHMACSHA256Signer_spec (keyID : String) (key : Option Bytes)
    (config : Option SignConfig) (fields : Fields) :
    ((∃ e, NewHMACSHA256Signer keyID key config fields = Except.error e) ↔
      (key = none ∨ (∃ k, key = some k ∧ k.length < 64) ∨ keyID = "")) ∧
    (∀ k, key = some k → 64 ≤ k.length → keyID ≠ "" →
      NewHMACSHA256Signer keyID key config fields =
        Except.ok { keyID := keyID, key := Key.bytes k, alg := "hmac-sha256",
                    config := config.getD NewSignConfig, fields := fields }) := by
  constructor
  · cases key with
    | none => simp [NewHMACSHA256Signer]
    | some k =>
      by_cases h1 : k.length < 64
      · simp [NewHMACSHA256Signer, h1]
      · by_cases h2 : keyID = ""
        · simp [NewHMACSHA256Signer, h1, h2]
        · simp [NewHMACSHA256Signer, h1, h2]
  · intro k hk hlen hkid
    subst hk
    simp [NewHMACSHA256Signer, Nat.not_lt.mpr hlen, hkid]

/-- Witness for C2: the success case at a concrete 64-byte key. -/
theorem NewHMACSHA256Signer_spec_witness :
    NewHMACSHA256Signer "key1" (some (List.replicate 64 1)) none [] =
      Except.ok { keyID := "key1", key := Key.bytes (List.replicate 64 1),
                  alg := "hmac-sha256", config := NewSignConfig, fields := [] } :=
  (NewHMACSHA256Signer_spec "key1" (some (List.replicate 64 1)) none []).2
    (List.replicate 64 1) rfl (by decide) (by decide)

/-- C9: none of the four Verifier constructors rejects an empty keyID:
each returns a Verifier and no error for any non-nil key (of length at
least 64 for HMAC) even when the keyID is the empty string. -/
theorem verifier_constructors_allow_empty_keyID
    (hkey : Bytes) (rkey : RSAPublicKey) (ekey : ECDSAPublicKey)
    (vc : Option VerifyConfig) (fl : Fields)
    (hlen : 64 ≤ hkey.length) :
    (∃ v, NewHMACSHA256Verifier "" (some hkey) vc fl = Except.ok v) ∧
    (∃ v, NewRSAVerifier "" (some rkey) vc fl = Except.ok v) ∧
    (∃ v, NewRSAPSSVerifier "" (some rkey) vc fl = Except.ok v) ∧
    (∃ v, NewP256Verifier "" (some ekey) vc fl = Except.ok v) := by
  refine ⟨⟨{ keyID := "", key := Key.bytes hkey, alg := "hmac-sha256",
             c := vc.getD NewVerifyConfig, f := fl }, ?_⟩,
          ⟨_, rfl⟩, ⟨_, rfl⟩, ⟨_, rfl⟩⟩
  simp [NewHMACSHA256Verifier, Nat.not_lt.mpr hlen]

/-- Witness for C9 at concrete keys. -/
theorem verifier_constructors_allow_empty_keyID_witness :
    (∃ v, NewHMACSHA256Verifier "" (some (List.replicate 64 0)) none [] = Except.ok v) ∧
    (∃ v, NewRSAVerifier "" (some { n := 3233, e := 17 }) none [] = Except.ok v) ∧
    (∃ v, NewRSAPSSVerifier "" (some { n := 3233, e := 17 }) none [] = Except.ok v) ∧
    (∃ v, NewP256Verifier "" (some { x := 1, y := 2 }) none [] = Except.ok v) :=
  verifier_constructors_allow_empty_keyID (List.replicate 64 0)
    { n := 3233, e := 17 } { x := 1, y := 2 } none [] (by decide)

/-- C5: the four Signer constructors fix the algorithm identifiers to
hmac-sha256, rsa-v1_5-sha256, rsa-pss-sha512 and ecdsa-p256-sha256
respectively, and on any Signer or Verifier whose algorithm string is
none of these four, sign returns an unknown-algorithm error and verify
returns false together with an unknown-algorithm error. -/
theorem algorithm_identifiers_fixed (prims : CryptoPrims) :
    (∀ keyID key cfg fl s, NewHMACSHA256Signer keyID key cfg fl = Except.ok s →
       s.alg = "hmac-sha256") ∧
    (∀ keyID key cfg fl s, NewRSASigner keyID key cfg fl = Except.ok s →
       s.alg = "rsa-v1_5-sha256") ∧
    (∀ keyID key cfg fl s, NewRSAPSSSigner keyID key cfg fl = Except.ok s →
       s.alg = "rsa-pss-sha512") ∧
    (∀ keyID key cfg fl s, NewP256Signer keyID key cfg fl = Except.ok s →
       s.alg = "ecdsa-p256-sha256") ∧
    (∀ (s : Signer) (buff : Bytes),
       s.alg ∉ ["hmac-sha256", "rsa-v1_5-sha256", "rsa-pss-sha512", "ecdsa-p256-sha256"] →
       s.sign prims buff = SignResult.err ("sign: unknown algorithm \"" ++ s.alg ++ "\"")) ∧
    (∀ (v : Verifier) (buff sig : Bytes),
       v.alg ∉ ["hmac-sha256", "rsa-v1_5-sha256", "rsa-pss-sha512", "ecdsa-p256-sha256"] →
       v.verify prims buff sig =
         VerifyResult.ret false (some ("verify: unknown algorithm \"" ++ v.alg ++ "\""))) := by
  refine ⟨?_, ?_, ?_, ?_, ?_, ?_⟩
  · intro kid key cfg fl s h
    cases key with
    | none => exact Except.noConfusion h
    | some k =>
      simp only [NewHMACSHA256Signer] at h
      split at h
      · exact Except.noConfusion h
      · split at h
        · exact Except.noConfusion h
        · cases h; rfl
  · intro kid key cfg fl s h
    cases key with
    | none => exact Except.noConfusion h
    | some k =>
      simp only [NewRSASigner] at h
      split at h
      · exact Except.noConfusion h
      · cases h; rfl
  · intro kid key cfg fl s h
    cases key with
    | none => exact Except.noConfusion h
    | some k =>
      simp only [NewRSAPSSSigner] at h
      split at h
      · exact Except.noConfusion h
      · cases h; rfl
  · intro kid key cfg fl s h
    cases key with
    | none => exact Except.noConfusion h
    | some k =>
      simp only [NewP256Signer] at h
      split at h
      · exact Except.noConfusion h
      · cases h; rfl
  · intro s buff h
    simp at h
    obtain ⟨h1, h2, h3, h4⟩ := h
    simp [Signer.sign, h1, h2, h3, h4]
  · intro v buff sig h
    simp at h
    obtain ⟨h1, h2, h3, h4⟩ := h
    simp [Verifier.verify, h1, h2, h3, h4]

/-- Witness for C5: the unknown-algorithm branches evaluated on a
Signer and a Verifier whose algorithm string is "foo". -/
theorem algorithm_identifiers_fixed_witness :
    Signer.sign somePrims
      { keyID := "k", key := Key.bytes [], alg := "foo",
        config := NewSignConfig, fields := [] } []
      = SignResult.err "sign: unknown algorithm \"foo\"" ∧
    Verifier.verify somePrims
      { keyID := "k", key := Key.bytes [], alg := "foo",
        c := NewVerifyConfig, f := [] } [] []
      = VerifyResult.ret false (some "verify: unknown algorithm \"foo\"") :=
  ⟨(algorithm_identifiers_fixed somePrims).2.2.2.2.1 _ [] (by decide),
   (algorithm_identifiers_fixed somePrims).2.2.2.2.2 _ [] [] (by decide)⟩

/-- C10: for algorithms rsa-v1_5-sha256 and rsa-pss-sha512, verify never
returns (false, nil): any failure of the underlying primitive —
including a plain signature mismatch — yields false together with a
non-nil wrapped error. -/
theorem rsa_verify_never_false_nil (prims : CryptoPrims) (v : Verifier)
    (buff sig : Bytes)
    (halg : v.alg = "rsa-v1_5-sha256" ∨ v.alg = "rsa-pss-sha512") :
    v.verify prims buff sig ≠ VerifyResult.ret false none ∧
    (∀ k e, v.key = Key.rsaPublic k →
      (v.alg = "rsa-v1_5-sha256" →
        prims.rsaVerifyPKCS1v15 k (prims.sha256 buff) sig = some e →
        v.verify prims buff sig =
          VerifyResult.ret false (some ("RSA verification failed: " ++ e))) ∧
      (v.alg = "rsa-pss-sha512" →
        prims.rsaVerifyPSS k (prims.sha512 buff) sig = some e →
        v.verify prims buff sig =
          VerifyResult.ret false (some ("RSA-PSS verification failed: " ++ e)))) := by
  refine ⟨?_, ?_⟩
  · rcases halg with h | h
    · unfold Verifier.verify
      rw [h, if_neg (by decide), if_pos rfl]
      cases hk : v.key <;> simp
      cases hv : prims.rsaVerifyPKCS1v15 _ (prims.sha256 buff) sig <;> simp
    · unfold Verifier.verify
      rw [h, if_neg (by decide), if_neg (by decide), if_pos rfl]
      cases hk : v.key <;> simp
      cases hv : prims.rsaVerifyPSS _ (prims.sha512 buff) sig <;> simp
  · intro k e hkey
    constructor
    · intro halg1 hv
      unfold Verifier.verify
      rw [halg1, if_neg (by decide), if_pos rfl, hkey]
      simp [hv]
    · intro halg2 hv
      unfold Verifier.verify
      rw [halg2, if_neg (by decide), if_neg (by decide), if_pos rfl, hkey]
      simp [hv]

/-- Witness for C10 at a concrete Verifier, with primitives whose RSA
verification fails. -/
theorem rsa_verify_never_false_nil_witness :
    Verifier.verify failPrims
      { keyID := "k", key := Key.rsaPublic { n := 3233, e := 17 },
        alg := "rsa-v1_5-sha256", c := NewVerifyConfig, f := [] } [] []
      ≠ VerifyResult.ret false none :=
  (rsa_verify_never_false_nil failPrims
    { keyID := "k", key := Key.rsaPublic { n := 3233, e := 17 },
      alg := "rsa-v1_5-sha256", c := NewVerifyConfig, f := [] } [] []
    (Or.inl rfl)).1

/-- The big-endian encoding into n bytes has length n. -/
theorem beBytes_length (n x : Nat) : (beBytes n x).length = n := by
  induction n generalizing x with
  | zero => rfl
  | succ n ih => simp [beBytes, ih]

/-- Big-endian decoding inverts the encoding below the range bound. -/
theorem beDecode_beBytes (n x : Nat) (h : x < 256 ^ n) :
    beDecode (beBytes n x) = x := by
  induction n generalizing x with
  | zero =>
    rw [pow_zero] at h
    simp only [beBytes, beDecode, List.foldl_nil]
    omega
  | succ n ih =>
    have hx : x / 256 < 256 ^ n := by
      rw [pow_succ] at h
      exact Nat.div_lt_of_lt_mul (by rw [Nat.mul_comm] at h; exact h)
    have hrec := ih (x / 256) hx
    simp only [beBytes, beDecode, List.foldl_append, List.foldl_cons, List.foldl_nil]
    simp only [beDecode] at hrec
    rw [hrec]
    omega

/-- C8: for algorithm ecdsa-p256-sha256, the signature emitted by
Signer.sign is the fixed-length concatenation of r and s — 32 bytes
each, big-endian, zero-padded, 64 bytes total, not ASN.1/DER — and
Verifier.verify consumes that same raw encoding, handing exactly r and
s back to the ECDSA primitive. -/
theorem ecdsa_raw_encoding (prims : CryptoPrims) (kid : String)
    (sk : ECDSAPrivateKey) (pk : ECDSAPublicKey)
    (cfg : SignConfig) (vcfg : VerifyConfig) (sf vf : Fields)
    (buff : Bytes) (r s : Nat)
    (hr : r < 256 ^ 32) (hs : s < 256 ^ 32)
    (hsig : prims.ecdsaSign sk (prims.sha256 buff) = some (r, s)) :
    Signer.sign prims
      { keyID := kid, key := Key.ecdsaPrivate sk, alg := "ecdsa-p256-sha256",
        config := cfg, fields := sf } buff
      = SignResult.ok (beBytes 32 r ++ beBytes 32 s) ∧
    (beBytes 32 r ++ beBytes 32 s).length = 64 ∧
    Verifier.verify prims
      { keyID := kid, key := Key.ecdsaPublic pk, alg := "ecdsa-p256-sha256",
        c := vcfg, f := vf } buff (beBytes 32 r ++ beBytes 32 s)
      = VerifyResult.ret (prims.ecdsaVerify pk (prims.sha256 buff) r s) none := by
  refine ⟨?_, ?_, ?_⟩
  · simp [Signer.sign, ecdsaSignRaw, hsig]
  · simp [beBytes_length]
  · have htake : (beBytes 32 r ++ beBytes 32 s).take 32 = beBytes 32 r :=
      List.take_left' (beBytes_length 32 r)
    have hdrop : (beBytes 32 r ++ beBytes 32 s).drop 32 = beBytes 32 s :=
      List.drop_left' (beBytes_length 32 r)
    simp [Verifier.verify, ecdsaVerifyRaw, htake, hdrop,
          beDecode_beBytes 32 r hr, beDecode_beBytes 32 s hs]

/-- Witness for C8 at concrete keys and signature pair (1, 2). -/
theorem ecdsa_raw_encoding_witness :
    Signer.sign somePrims
      { keyID := "k", key := Key.ecdsaPrivate { d := 5 },
        alg := "ecdsa-p256-sha256", config := NewSignConfig, fields := [] } []
      = SignResult.ok (beBytes 32 1 ++ beBytes 32 2) ∧
    (beBytes 32 1 ++ beBytes 32 2).length = 64 ∧
    Verifier.verify somePrims
      { keyID := "k", key := Key.ecdsaPublic { x := 1, y := 2 },
        alg := "ecdsa-p256-sha256", c := NewVerifyConfig, f := [] } []
      (beBytes 32 1 ++ beBytes 32 2)
      = VerifyResult.ret
          (somePrims.ecdsaVerify { x := 1, y := 2 } (somePrims.sha256 []) 1 2) none :=
  ecdsa_raw_encoding somePrims "k" { d := 5 } { x := 1, y := 2 }
    NewSignConfig NewVerifyConfig [] [] [] 1 2 (by decide) (by decide) rfl
